import Mathlib

/-!
Verification of the InsiteForge web dashboard sources.

The development shallowly embeds the JavaScript of
`InsightForge-main/webapp/app.js`, `InsightForge-main/webapp/config.js`
(which carries both the configuration module and the step-wizard dashboard
module), `InsiteForge-main/webapp/ui.js` and the api client module, and
proves properties of the embedded functions.

Modelling conventions:
  * JavaScript strings are Lean `String` / `List Char`; case folding and the
    regex character classes are restricted to their ASCII behaviour, which is
    all the embedded code exercises.
  * JavaScript numbers are embedded as `ℚ` (the decimal literals appearing in
    the sources are exactly representable); `Math.round` is floor of x + 1/2,
    which is the JavaScript half-up rounding rule.
  * The falsy/truthy coercions of `||` and of conditionals are made explicit:
    an absent value is `Option.none`, an empty string and the number 0 are
    falsy.
  * `fetch` outcomes are an inductive type (success body, HTTP error,
    abort by the timeout controller, network error), so the asynchronous
    control flow becomes a pure function from the outcome.
-/

namespace InsiteForge

/-! ## ASCII character utilities (embedding of the regex classes and of
`toLowerCase`/`toUpperCase`/`trim`) -/

/-- ASCII lower-casing of one character, as `String.prototype.toLowerCase`
and the `i` regex flag behave on the ASCII range. -/
def lowerChar (c : Char) : Char :=
  if 65 ≤ c.toNat ∧ c.toNat ≤ 90 then Char.ofNat (c.toNat + 32) else c

/-- ASCII upper-casing of one character (`String.prototype.toUpperCase`). -/
def upperChar (c : Char) : Char :=
  if 97 ≤ c.toNat ∧ c.toNat ≤ 122 then Char.ofNat (c.toNat - 32) else c

/-- The regex class `\d`. -/
def isDigitC (c : Char) : Bool :=
  decide (48 ≤ c.toNat ∧ c.toNat ≤ 57)

/-- The regex class `[A-Za-z]`. -/
def isAlphaC (c : Char) : Bool :=
  decide ((65 ≤ c.toNat ∧ c.toNat ≤ 90) ∨ (97 ≤ c.toNat ∧ c.toNat ≤ 122))

/-- The regex class `\s`, restricted to the ASCII whitespace characters. -/
def isWsC (c : Char) : Bool :=
  decide (c.toNat = 32 ∨ c.toNat = 9 ∨ c.toNat = 10 ∨ c.toNat = 13 ∨
    c.toNat = 11 ∨ c.toNat = 12)

/-- ASCII lower-casing of a string, as a character list. -/
def lowerSeq (s : String) : List Char := s.data.map lowerChar

/-- `String.prototype.trim`: strip whitespace from both ends. -/
def trimSeq (l : List Char) : List Char :=
  ((l.dropWhile isWsC).reverse.dropWhile isWsC).reverse

/-- String-level `trim`. -/
def strTrim (s : String) : String := String.mk (trimSeq s.data)

/-- String-level `toUpperCase`. -/
def strUpper (s : String) : String := String.mk (s.data.map upperChar)

/-- `String.prototype.includes` on character lists. -/
def containsSeq (needle : List Char) : List Char → Bool
  | [] => needle.isEmpty
  | c :: cs => needle.isPrefixOf (c :: cs) || containsSeq needle cs

/-- JavaScript `a || b` on an optional string: an absent value and the empty
string are falsy. -/
def jsOrS (v : Option String) (d : String) : String :=
  match v with
  | some s => if s = "" then d else s
  | none => d

/-- JavaScript `a || b` on an optional number: an absent value and 0 are
falsy (`NaN` is outside the rational model). -/
def jsOrQ (v : Option ℚ) (d : ℚ) : ℚ :=
  match v with
  | some x => if x = 0 then d else x
  | none => d

/-- `Math.round`: round half toward positive infinity. -/
def jsRound (q : ℚ) : ℤ := ⌊q + 1/2⌋

/-! ## Data model shared by both dashboard variants -/

/-- Parsed tabular rows: each row is the header-to-cell association the
CSV parsing loops build. -/
abbrev Rows := List (List (String × String))

/-- The five source kinds of the analysis brief. -/
inductive SourceKind where
  | catalog
  | reviews
  | pricing
  | competitors
  | performanceSignals
deriving DecidableEq, Repr

/-- A logical source handle: a server-side file path or inline rows. -/
inductive SourceHandle where
  | path (p : String)
  | inline (rows : Rows)
deriving DecidableEq, Repr

/-- The `data_sources` object of a brief. -/
structure DataSources where
  catalog : SourceHandle
  reviews : SourceHandle
  pricing : SourceHandle
  competitors : SourceHandle
  performance_signals : SourceHandle
deriving DecidableEq, Repr

/-! ## app.js: upload routing (`handleFiles`) -/

/-- The per-file routing of `handleFiles` in `app.js`: the parse callback
stores the rows under `reviews` when the lower-cased file name contains
`review`, under `pricing` when it contains `price` or `pricing`, and under
`catalog` otherwise. -/
def classifyUpload (name : String) : SourceKind :=
  let lower := lowerSeq name
  if containsSeq "review".data lower then .reviews
  else if containsSeq "price".data lower || containsSeq "pricing".data lower then
    .pricing
  else .catalog

/-- `appState.parsedData`: `handleFiles` only ever writes the keys
`catalog`, `reviews` and `pricing`. -/
structure ParsedData where
  catalog : Option Rows
  reviews : Option Rows
  pricing : Option Rows
deriving DecidableEq, Repr

def emptyParsed : ParsedData := ⟨none, none, none⟩

/-- One parse-complete callback of `handleFiles`. -/
def addParsedFile (pd : ParsedData) (name : String) (rows : Rows) : ParsedData :=
  match classifyUpload name with
  | .reviews => { pd with reviews := some rows }
  | .pricing => { pd with pricing := some rows }
  | _ => { pd with catalog := some rows }

/-- `handleFiles`: clear `parsedData`, then store each file under the kind
chosen from its name. -/
def handleFiles (files : List (String × Rows)) : ParsedData :=
  files.foldl (fun pd f => addParsedFile pd f.1 f.2) emptyParsed

/-- `Object.keys(appState.parsedData).length > 0`. -/
def parsedNonempty (pd : ParsedData) : Bool :=
  pd.catalog.isSome || pd.reviews.isSome || pd.pricing.isSome

/-- The default `data_sources` object built in `handleRunAnalysis`
(`app.js`). -/
def appDefaultSources : DataSources :=
  { catalog := .path "catalog.json"
    reviews := .path "reviews.json"
    pricing := .path "pricing.json"
    competitors := .path "competitors.json"
    performance_signals := .path "performance_signals.json" }

/-- The inline-injection step of `handleRunAnalysis`: in custom data mode
with nonempty parsed data, the `catalog`, `reviews` and `pricing` handles
are overridden by the parsed rows; the other two handles are untouched. -/
def injectParsed (ds : DataSources) (pd : ParsedData) (isCustom : Bool) :
    DataSources :=
  if isCustom ∧ parsedNonempty pd then
    { ds with
      catalog := match pd.catalog with | some r => .inline r | none => ds.catalog
      reviews := match pd.reviews with | some r => .inline r | none => ds.reviews
      pricing := match pd.pricing with | some r => .inline r | none => ds.pricing }
  else ds

/-! ## app.js: the analysis brief, payload, run handler and API call -/

/-- The brief object `handleRunAnalysis` builds. -/
structure AppBrief where
  product_name : String
  scope_type : String
  business_goal : String
  scope_value : String
  mode : String
  marketplace : String
  region : String
  data_sources : DataSources
deriving DecidableEq, Repr

/-- The payload posted to `/analyze` by `handleRunAnalysis`. -/
structure ApiPayload where
  brief : AppBrief
  update_memory : Bool
  memory_path : String
  source_base_dir : String
  output_path : String
deriving DecidableEq, Repr

/-- The form inputs `handleRunAnalysis` reads (an absent value models a
missing DOM element or an unchecked radio group). -/
structure RunInputs where
  product : Option String
  goal : Option String
  mode : Option String
  mplace : Option String
  region : Option String
  dataMode : Option String
  parsed : ParsedData
deriving Repr

/-- The payload construction of `handleRunAnalysis` for the validated
product value `p`. -/
def mkApiPayload (p : String) (inp : RunInputs) : ApiPayload :=
  { brief :=
      { product_name := strTrim p
        scope_type := "SKU"
        business_goal := jsOrS inp.goal "growth"
        scope_value := strUpper (strTrim p)
        mode := jsOrS inp.mode "quick"
        marketplace := jsOrS inp.mplace "Amazon"
        region := jsOrS inp.region "Global"
        data_sources :=
          injectParsed appDefaultSources inp.parsed (inp.dataMode = some "custom") }
    update_memory := false
    memory_path := "data/domain_memory.json"
    source_base_dir := "datasets/processed"
    output_path := "out/api_report.md" }

/-- The externally visible action of one `handleRunAnalysis` invocation up
to the API call: either an error toast with no request, or a request. -/
structure RunAction where
  request : Option ApiPayload
  errorToast : Option String
deriving Repr

/-- `handleRunAnalysis` validation and payload construction: a missing
input element, an empty value or a whitespace-only value shows the toast
and issues no request. -/
def runHandler (inp : RunInputs) : RunAction :=
  match inp.product with
  | none => ⟨none, some "Please enter a product name"⟩
  | some p =>
    if strTrim p = "" then ⟨none, some "Please enter a product name"⟩
    else ⟨some (mkApiPayload p inp), none⟩

/-- The structured report object returned by `/analyze`. -/
structure AnalyzeResult where
  confidence_score : Option ℚ
  data_completeness : Option ℚ
  risks : List String
  recommendations : List String
  report : Option String
  mode : Option String
deriving DecidableEq, Repr

/-- Outcome of the `fetch` to `/analyze`: success with a parsed body, an
HTTP error status with an optional `detail` field, an abort fired by the
timeout controller, or a network error. -/
inductive FetchOutcome where
  | ok (r : AnalyzeResult)
  | httpError (status : Nat) (detail : Option String)
  | abort
  | netError (msg : String)
deriving Repr

/-- `CONFIG.API_TIMEOUT || 30000`, the delay handed to the abort timer of
`callAPI` (an absent or zero configuration value is falsy). -/
def effectiveTimeout (cfg : Option Nat) : Nat :=
  match cfg with
  | some t => if t = 0 then 30000 else t
  | none => 30000

/-- The message `callAPI` throws when the abort controller fires. -/
def timeoutMsg : String :=
  "API request timed out (30s). The server might be busy or offline."

/-- `callAPI` in `app.js` as a function of the fetch outcome: a non-ok
response throws `detail` (or the status message) and an abort throws the
timeout message. -/
def callAPI (outcome : FetchOutcome) : Except String AnalyzeResult :=
  match outcome with
  | .ok r => .ok r
  | .httpError st d => .error (jsOrS d ("API Error: " ++ toString st))
  | .abort => .error timeoutMsg
  | .netError m => .error m

/-! ## app.js: results display (`displayResults`) -/

/-- The score-related DOM updates `displayResults` performs. -/
structure ScoreView where
  confText : String
  badge : String
  compText : String
  meterWidth : String
deriving DecidableEq, Repr

/-- The confidence badge rule of `displayResults` (`app.js`): High at 0.8,
Medium at 0.5. -/
def appBadgeLabel (c : ℚ) : String :=
  if 0.8 ≤ c then "High" else if 0.5 ≤ c then "Medium" else "Low"

/-- `displayResults`: falsy scores are replaced by 0.75 and 0.8 before
display; the meter width string carries the unrounded percentage. -/
def displayResults (r : AnalyzeResult) : ScoreView :=
  { confText := toString (jsRound (jsOrQ r.confidence_score 0.75 * 100)) ++ "%"
    badge := appBadgeLabel (jsOrQ r.confidence_score 0.75)
    compText := toString (jsRound (jsOrQ r.data_completeness 0.8 * 100)) ++ "%"
    meterWidth := toString (jsOrQ r.data_completeness 0.8 * 100) ++ "%" }

/-- What one full `handleRunAnalysis` run leaves on screen, given the fetch
outcome: the success path renders the result, the failure path sets an
error status and toast and renders nothing. -/
structure RunView where
  displayed : Option ScoreView
  status : String
  toast : String
deriving Repr

/-- `handleRunAnalysis` composed with `callAPI` and `displayResults`. -/
def runWithOutcome (inp : RunInputs) (outcome : FetchOutcome) : RunView :=
  match (runHandler inp).request with
  | none => { displayed := none, status := "", toast := "Please enter a product name" }
  | some _ =>
    match callAPI outcome with
    | .ok r =>
      { displayed := some (displayResults r)
        status := "✅ Analysis complete!"
        toast := "✅ Analysis complete!" }
    | .error e =>
      { displayed := none, status := "❌ " ++ e, toast := e }

/-! ## config.js: the step-wizard dashboard module -/

/-- `String.prototype.replace` with a plain-string pattern and empty
replacement: delete the first occurrence of `pat`. -/
def replaceFirstSeq (pat : List Char) : List Char → List Char
  | [] => []
  | c :: cs =>
    if pat.isPrefixOf (c :: cs) then (c :: cs).drop pat.length
    else c :: replaceFirstSeq pat cs

/-- `file.name.replace(".csv", "")` — the key under which the wizard's
`runAnalysis` stores a parsed upload. -/
def stemOf (name : String) : String :=
  String.mk (replaceFirstSeq ".csv".data name.data)

/-- The `fileData` object: later files with the same stem overwrite earlier
ones, so the association list is built head-first and read by first hit. -/
def cfgFileData (files : List (String × Rows)) : List (String × Rows) :=
  files.foldl (fun m f => (stemOf f.1, f.2) :: m) []

/-- `CONFIG.DEFAULT_SOURCES` wrapped in path handles, as the wizard's
`runAnalysis` initialises `dataSources`. -/
def cfgDefaultSources : DataSources :=
  { catalog := .path "catalog.json"
    reviews := .path "reviews.json"
    pricing := .path "pricing.json"
    competitors := .path "competitors.json"
    performance_signals := .path "performance_signals.json" }

/-- The `data_sources` object the wizard's `runAnalysis` builds: in upload
mode with at least one file, each handle is the parsed rows stored under
the code's lookup key for that handle (note the `performance` key for the
`performance_signals` handle), with the default path as fallback. A parsed
rows array is always truthy in JavaScript, so presence of the key decides. -/
def cfgDataSources (dataMode : String) (files : List (String × Rows)) :
    DataSources :=
  if dataMode = "upload" ∧ files ≠ [] then
    let fd := cfgFileData files
    { catalog := match fd.lookup "catalog" with
        | some r => .inline r | none => cfgDefaultSources.catalog
      reviews := match fd.lookup "reviews" with
        | some r => .inline r | none => cfgDefaultSources.reviews
      pricing := match fd.lookup "pricing" with
        | some r => .inline r | none => cfgDefaultSources.pricing
      competitors := match fd.lookup "competitors" with
        | some r => .inline r | none => cfgDefaultSources.competitors
      performance_signals := match fd.lookup "performance" with
        | some r => .inline r | none => cfgDefaultSources.performance_signals }
  else cfgDefaultSources

/-- Result of `handleStep1Next`: either an alert with no navigation, or the
stored form values and the move to step 2. -/
structure Step1Result where
  alert : Option String
  advanced : Bool
  storedProduct : Option String
  storedMarketplace : Option String
deriving DecidableEq, Repr

/-- `handleStep1Next`: an empty or whitespace-only product shows the alert
and stays on step 1; otherwise the trimmed values are stored and the wizard
advances. -/
def handleStep1Next (productVal marketplaceVal : String) : Step1Result :=
  let p := strTrim productVal
  if p = "" then ⟨some "Please enter a product name or SKU", false, none, none⟩
  else ⟨none, true, some p, some (jsOrS (some (strTrim marketplaceVal)) "Unknown")⟩

/-- The subtitle line of `showResults` (`config.js`): the function receives
the result object, but the subtitle expression reads only the `product` and
requested `mode` arguments. -/
def cfgShowResultsView (_result : AnalyzeResult) (product mode : String) : String :=
  product ++ " • " ++ (if mode = "quick" then "Quick" else "Deep") ++ " Analysis"

/-- The confidence badge rule of `showResults` (`config.js`): High at 75,
Medium at 50, on the percentage scale. -/
def cfgShowResultsBadge (confidence : ℚ) : String :=
  if 75 ≤ confidence then "High" else if 50 ≤ confidence then "Medium" else "Low"

/-! ## ui.js: `scoreToBadge` -/

/-- The record `scoreToBadge` returns. -/
structure BadgeInfo where
  label : String
  className : String
  colorClass : String
deriving DecidableEq, Repr

/-- `scoreToBadge` in `ui.js`: High at 75, Medium at 50, on the percentage
scale. -/
def scoreToBadge (score : ℚ) : BadgeInfo :=
  if 75 ≤ score then ⟨"High", "badge-confidence-high", "value-high"⟩
  else if 50 ≤ score then ⟨"Medium", "badge-confidence-mid", "value-mid"⟩
  else ⟨"Low", "badge-confidence-low", "value-low"⟩

/-! ## The api client module: `runAnalysis` -/

/-- The JSON body of an `/analyze` response, reduced to the one field the
client reads on the error path. -/
structure ApiBody where
  detail : Option String
deriving DecidableEq, Repr

/-- The `/analyze` response as the api client observes it: the HTTP `ok`
flag and the body parse outcome (`none` when `response.json()` rejects). -/
structure ApiResponse where
  ok : Bool
  parsed : Option ApiBody
deriving DecidableEq, Repr

/-- The api client's `runAnalysis`: parse the body into `data` (an empty
object when unparsable), throw `data.detail || "Analysis failed"` when the
response is not ok, and return `data` otherwise. -/
def apiRunAnalysis (resp : ApiResponse) : Except String ApiBody :=
  let data : ApiBody := match resp.parsed with | some b => b | none => ⟨none⟩
  if resp.ok then .ok data else .error (jsOrS data.detail "Analysis failed")

/-! ## The backend mode controller, modelled from the spec -/

/-- The operating modes of the engine. -/
inductive RunMode where
  | Quick
  | Deep
  | DegradedDeep
deriving DecidableEq, Repr

/-- Modelled from the spec: the Mode Controller of the backend engine
(`src/research_agent.py`, which is not among the provided sources). Spec
section 4.6: Deep is entered only if the preliminary completeness score
meets a minimum threshold and at least 3 of 5 sources are present;
otherwise the run transitions to DegradedDeep; Quick always proceeds
directly. -/
def modeController (requested : String) (sourcesPresent : Nat)
    (completeness minThreshold : ℚ) : RunMode :=
  if requested = "deep" then
    if 3 ≤ sourcesPresent ∧ minThreshold ≤ completeness then .Deep
    else .DegradedDeep
  else .Quick

/-! ## ui.js: `extractMeta`

The two regular expressions of `extractMeta` are embedded as direct
scanners.  Both patterns alternate literal runs with the character classes
`\s`, `\d` and `[A-Za-z]`; since those classes are pairwise disjoint and
disjoint from the literal characters that follow them, the greedy
backtracking-free scan below matches exactly the strings the JavaScript
engine matches, and an unanchored search is the leftmost such match. -/

/-- Match a literal (given lower-cased) case-insensitively at the head,
returning the remainder. -/
def matchLit : List Char → List Char → Option (List Char)
  | [], s => some s
  | _ :: _, [] => none
  | p :: ps, c :: cs => if lowerChar c = p then matchLit ps cs else none

/-- The digit-string value `Number(...)` assigns to a captured `(\d+)`. -/
def digitsVal (ds : List Char) : Nat :=
  ds.foldl (fun a c => 10 * a + (c.toNat - 48)) 0

/-- The literal run of `/Confidence Score:\s*(\d+)%/i`. -/
def confLit : List Char := "confidence score:".data

/-- The leading literal run of
`/Data Completeness(?: Assessment)?:\s*([A-Za-z]+)(?:\s*\((\d+)%\))?/i`. -/
def compLit : List Char := "data completeness".data

/-- The optional literal `(?: Assessment)?`. -/
def assessLit : List Char := " assessment".data

/-- The part of the confidence pattern after its literal run:
`\s*(\d+)%`, returning the captured number. -/
def confAfter (r : List Char) : Option Nat :=
  let r1 := r.dropWhile isWsC
  let ds := r1.takeWhile isDigitC
  if ds = [] then none
  else
    match r1.dropWhile isDigitC with
    | '%' :: _ => some (digitsVal ds)
    | _ => none

/-- Try the confidence pattern at this position. -/
def matchConfAt (s : List Char) : Option Nat :=
  match matchLit confLit s with
  | none => none
  | some r => confAfter r

/-- Unanchored search for the confidence pattern (leftmost match). -/
def searchConf : List Char → Option Nat
  | [] => none
  | c :: cs =>
    match matchConfAt (c :: cs) with
    | some n => some n
    | none => searchConf cs

/-- The part of the completeness pattern after `Data Completeness`:
`(?: Assessment)?:\s*([A-Za-z]+)(?:\s*\((\d+)%\))?`, returning the label
capture and the optional percent capture.  The optional groups never force
backtracking: ` Assessment` and `:` start with distinct characters, and a
failed parenthesised group leaves the pattern end reachable with the group
empty. -/
def compAfter (r : List Char) : Option (List Char × Option Nat) :=
  let r1 := match matchLit assessLit r with | some r2 => r2 | none => r
  match r1 with
  | ':' :: r2 =>
    let r3 := r2.dropWhile isWsC
    let label := r3.takeWhile isAlphaC
    if label = [] then none
    else
      let r4 := (r3.dropWhile isAlphaC).dropWhile isWsC
      match r4 with
      | '(' :: r5 =>
        let ds := r5.takeWhile isDigitC
        if ds = [] then some (label, none)
        else
          match r5.dropWhile isDigitC with
          | '%' :: ')' :: _ => some (label, some (digitsVal ds))
          | _ => some (label, none)
      | _ => some (label, none)
  | _ => none

/-- Try the completeness pattern at this position. -/
def matchCompAt (s : List Char) : Option (List Char × Option Nat) :=
  match matchLit compLit s with
  | none => none
  | some r => compAfter r

/-- Unanchored search for the completeness pattern (leftmost match). -/
def searchComp : List Char → Option (List Char × Option Nat)
  | [] => none
  | c :: cs =>
    match matchCompAt (c :: cs) with
    | some r => some r
    | none => searchComp cs

/-- The record `extractMeta` returns. -/
structure Meta where
  confidence : Option Nat
  completenessLabel : Option String
  completenessScore : Option Nat
deriving DecidableEq, Repr

/-- `extractMeta` in `ui.js`: run both searches over the report; the
completeness score is set only when the match carries the parenthesised
percent capture. -/
def extractMeta (report : String) : Meta :=
  let s := report.data
  { confidence := searchConf s
    completenessLabel :=
      match searchComp s with
      | some (l, _) => some (String.mk l)
      | none => none
    completenessScore :=
      match searchComp s with
      | some (_, some n) => some n
      | _ => none }

/-! ## Report templates for the `extractMeta` theorems -/

/-- First literal segment of the labeled report template. -/
def rpt1 : List Char := "Confidence Score: ".data

/-- Middle literal segment of the labeled report template. -/
def rpt2 : List Char := "%\nData Completeness: High (".data

/-- Final literal segment of the labeled report template. -/
def rpt3 : List Char := "%)".data

/-- A report carrying the literal line `Confidence Score: <ds>%` and a
labeled completeness line `Data Completeness: High (<ms>%)`. -/
def mkLabeledReport (ds ms : List Char) : String :=
  String.mk (rpt1 ++ (ds ++ (rpt2 ++ (ms ++ rpt3))))

/-! ## Scanner lemmas -/

theorem digit_bounds {c : Char} (h : isDigitC c = true) :
    48 ≤ c.toNat ∧ c.toNat ≤ 57 := by
  simpa [isDigitC] using h

theorem digit_lower_ne_d {c : Char} (h : isDigitC c = true) :
    lowerChar c ≠ 'd' := by
  have hb := digit_bounds h
  have hcond : ¬ (65 ≤ c.toNat ∧ c.toNat ≤ 90) := by omega
  unfold lowerChar
  rw [if_neg hcond]
  intro e
  rw [e] at hb
  exact absurd hb (by decide)

theorem digit_not_ws {c : Char} (h : isDigitC c = true) : isWsC c = false := by
  have hb := digit_bounds h
  simp only [isWsC, decide_eq_false_iff_not]
  omega

theorem matchLit_head_ne (p : Char) (ps : List Char) (c : Char) (cs : List Char)
    (h : lowerChar c ≠ p) : matchLit (p :: ps) (c :: cs) = none := by
  simp [matchLit, h]

/-- Take/drop of an all-true block halted by a failing head. -/
theorem takeDropWhile_all_append (p : Char → Bool) :
    ∀ (ds : List Char) (c₀ : Char) (rest : List Char),
      (∀ c ∈ ds, p c = true) → p c₀ = false →
      (ds ++ (c₀ :: rest)).takeWhile p = ds
      ∧ (ds ++ (c₀ :: rest)).dropWhile p = c₀ :: rest := by
  intro ds
  induction ds with
  | nil =>
    intro c₀ rest _ h0
    simp [List.takeWhile_cons, List.dropWhile_cons, h0]
  | cons d t ih =>
    intro c₀ rest h h0
    have hd := h d (by simp)
    have ht := ih c₀ rest (fun c hc => h c (by simp [hc])) h0
    simp [List.takeWhile_cons, List.dropWhile_cons, hd, ht.1, ht.2]

theorem searchConf_cons_some {c : Char} {cs : List Char} {n : Nat}
    (h : matchConfAt (c :: cs) = some n) : searchConf (c :: cs) = some n := by
  simp [searchConf, h]

theorem searchComp_cons_some {c : Char} {cs : List Char}
    {r : List Char × Option Nat} (h : matchCompAt (c :: cs) = some r) :
    searchComp (c :: cs) = some r := by
  simp [searchComp, h]

theorem searchComp_cons_none {c : Char} {cs : List Char}
    (h : matchCompAt (c :: cs) = none) : searchComp (c :: cs) = searchComp cs := by
  simp [searchComp, h]

/-- The completeness search skips over any digit block: a digit cannot open
the literal `data completeness`. -/
theorem searchComp_digits_skip :
    ∀ (ds rest : List Char), (∀ c ∈ ds, isDigitC c = true) →
      searchComp (ds ++ rest) = searchComp rest := by
  intro ds
  induction ds with
  | nil => intro rest _; rfl
  | cons d t ih =>
    intro rest h
    have hdd := h d (by simp)
    have hnone : matchCompAt (d :: (t ++ rest)) = none := by
      unfold matchCompAt
      rw [show compLit = 'd' :: "ata completeness".data from rfl]
      rw [matchLit_head_ne _ _ _ _ (digit_lower_ne_d hdd)]
    rw [List.cons_append, searchComp_cons_none hnone]
    exact ih rest (fun c hc => h c (by simp [hc]))

/-- The confidence tail `\s*(\d+)%` succeeds on a space, a nonempty digit
block and a percent sign, capturing the digit block's value. -/
theorem confAfter_at (ds rest : List Char) (hne : ds ≠ [])
    (hd : ∀ c ∈ ds, isDigitC c = true) :
    confAfter (' ' :: (ds ++ ('%' :: rest))) = some (digitsVal ds) := by
  obtain ⟨d, t, rfl⟩ : ∃ d t, ds = d :: t := by
    cases ds with
    | nil => exact absurd rfl hne
    | cons d t => exact ⟨d, t, rfl⟩
  have hdd := hd d (by simp)
  have hws : (' ' :: ((d :: t) ++ ('%' :: rest))).dropWhile isWsC
      = (d :: t) ++ ('%' :: rest) := by
    rw [List.dropWhile_cons_of_pos (by decide), List.cons_append,
      List.dropWhile_cons_of_neg (by simp [digit_not_ws hdd]), ← List.cons_append]
  have htd := takeDropWhile_all_append isDigitC (d :: t) '%' rest hd (by decide)
  simp only [confAfter, hws, htd.1, htd.2]
  simp

/-- The completeness pattern at the template's `Data Completeness` position
matches with label `High` and the percent capture. -/
theorem matchCompAt_at (ms rest : List Char) (hne : ms ≠ [])
    (hm : ∀ c ∈ ms, isDigitC c = true) :
    matchCompAt ("Data Completeness: High (".data ++ (ms ++ ('%' :: (')' :: rest))))
      = some ("High".data, some (digitsVal ms)) := by
  have hstep :
      matchCompAt ("Data Completeness: High (".data ++ (ms ++ ('%' :: (')' :: rest))))
        = (let dsc := (ms ++ ('%' :: (')' :: rest))).takeWhile isDigitC
           if dsc = [] then some ("High".data, none)
           else
             match (ms ++ ('%' :: (')' :: rest))).dropWhile isDigitC with
             | '%' :: ')' :: _ => some ("High".data, some (digitsVal dsc))
             | _ => some ("High".data, none)) := rfl
  have htd := takeDropWhile_all_append isDigitC ms '%' (')' :: rest) hm (by decide)
  rw [hstep]
  simp only [htd.1, htd.2]
  simp [hne]

/-! ## Concrete fixtures used by the theorems -/

/-- A small parsed-rows fixture. -/
def demoRows : Rows := [[("sku", "A1"), ("views", "100")]]

/-- A result object whose mode field reports a degraded deep run. -/
def degradedResult : AnalyzeResult :=
  { confidence_score := some 0.4
    data_completeness := some 0.4
    risks := ["only 2 of 5 sources present"]
    recommendations := []
    report := some "Degraded analysis"
    mode := some "degraded_deep" }

/-- A result object whose mode field reports a full deep run. -/
def okDeepResult : AnalyzeResult :=
  { confidence_score := some 0.9
    data_completeness := some 1
    risks := []
    recommendations := []
    report := some "Deep analysis"
    mode := some "deep" }

/-- A form-input fixture with a valid product value. -/
def goodInputs : RunInputs :=
  { product := some "Widget"
    goal := none
    mode := none
    mplace := none
    region := none
    dataMode := none
    parsed := emptyParsed }

/-- A result fixture whose backend scores are reported as zero. -/
def zeroResult : AnalyzeResult :=
  { confidence_score := some 0
    data_completeness := some 0
    risks := []
    recommendations := []
    report := none
    mode := none }

/-! ## C1 -/

/-- C1, counterexample: the source kind under which uploaded rows enter the
brief is a function of the file's name — `reviews.csv` and `catalog.csv`
are routed to different kinds by `handleFiles` — so it is not given by a
caller-supplied declaration independent of naming. -/
theorem classifyUpload_name_dependent :
    classifyUpload "reviews.csv" = .reviews
    ∧ classifyUpload "catalog.csv" = .catalog
    ∧ SourceKind.reviews ≠ SourceKind.catalog := by
  decide

/-- C1, amended: the source kind of an uploaded file is inferred from its
name by substring matching on the lower-cased name — `review` selects the
Reviews kind, otherwise `price`/`pricing` selects the Pricing kind, and
every other name defaults to the Catalog kind; no explicit source-kind
declaration is consulted. -/
theorem classifyUpload_characterization (name : String) :
    (classifyUpload name = .reviews ↔
      containsSeq "review".data (lowerSeq name) = true)
    ∧ (classifyUpload name = .pricing ↔
      (containsSeq "review".data (lowerSeq name) = false
        ∧ (containsSeq "price".data (lowerSeq name)
            || containsSeq "pricing".data (lowerSeq name)) = true))
    ∧ (classifyUpload name = .catalog ↔
      (containsSeq "review".data (lowerSeq name) = false
        ∧ (containsSeq "price".data (lowerSeq name)
            || containsSeq "pricing".data (lowerSeq name)) = false)) := by
  simp only [classifyUpload]
  split_ifs with h1 h2 <;> simp_all
  rcases h2 with h2 | h2 <;> simp_all

/-! ## C2 -/

/-- C2: the wizard's `runAnalysis` keys uploaded rows by the file-name stem
and reads the `performance` key for the `performance_signals` handle, so an
upload named after the handle itself (`performance_signals.csv`, the
recommended file name) silently falls back to the default path for every
handle, while a file named `performance.csv` is carried inline. -/
theorem cfg_perf_signals_fallback :
    cfgDataSources "upload" [("performance_signals.csv", demoRows)] = cfgDefaultSources
    ∧ (cfgDataSources "upload" [("performance.csv", demoRows)]).performance_signals
        = .inline demoRows := by
  decide

/-! ## C3 -/

/-- C3, counterexample: `showResults` labels the displayed result with the
requested mode — for a report object whose mode field is `degraded_deep`
the subtitle still reads `Deep Analysis`, with no degradation wording —
so the shown mode label does not reflect the mode field of the returned
report object. -/
theorem showResults_label_ignores_report_mode :
    degradedResult.mode = some "degraded_deep"
    ∧ cfgShowResultsView degradedResult "Widget" "deep" = "Widget • Deep Analysis"
    ∧ containsSeq "egraded".data ("Widget • Deep Analysis").data = false := by
  refine ⟨rfl, rfl, by decide⟩

/-- C3, amended: under the spec-modelled Mode Controller, a deep request
with fewer than 3 sources present always yields DegradedDeep; however, the
mode label shown with a displayed result is computed solely from the
requested mode — the subtitle of `showResults` is invariant under every
change of the returned report object, its mode field included. -/
theorem modeController_degraded_and_label_requested :
    (∀ (n : Nat) (comp thr : ℚ), n < 3 →
      modeController "deep" n comp thr = .DegradedDeep)
    ∧ (∀ (r₁ r₂ : AnalyzeResult) (p m : String),
      cfgShowResultsView r₁ p m = cfgShowResultsView r₂ p m) := by
  constructor
  · intro n comp thr h
    have hno : ¬ (3 ≤ n ∧ thr ≤ comp) := by
      rintro ⟨h3, _⟩
      omega
    simp [modeController, hno]
  · intro r₁ r₂ p m
    rfl

/-- C3, witness. -/
theorem modeController_degraded_and_label_requested_witness :
    modeController "deep" 2 (1/2) (3/5) = .DegradedDeep
    ∧ cfgShowResultsView degradedResult "Widget" "deep"
        = cfgShowResultsView okDeepResult "Widget" "deep" :=
  ⟨modeController_degraded_and_label_requested.1 2 (1/2) (3/5) (by decide),
   modeController_degraded_and_label_requested.2 degradedResult okDeepResult
     "Widget" "deep"⟩

/-! ## C4 -/

/-- C4, counterexample: on a report that literally includes the lines
`Confidence Score: 70%` and `Data Completeness: 80%`, `extractMeta`
round-trips the confidence but returns no completeness score — its
completeness pattern requires a letter label after the colon, so the bare
percent form yields null rather than 80. -/
theorem extractMeta_bare_percent_counterexample :
    extractMeta "Confidence Score: 70%\nData Completeness: 80%"
      = ⟨some 70, none, none⟩
    ∧ (extractMeta "Confidence Score: 70%\nData Completeness: 80%").completenessScore
        ≠ some 80 := by
  exact ⟨rfl, by decide⟩

/-- C4, amended: `extractMeta` round-trips the confidence line
`Confidence Score: N%` for every decimal digit string N, but the
completeness score only from the labeled form
`Data Completeness: High (M%)` — there it returns the numeric values of
both digit strings (and the label), while a bare `Data Completeness: M%`
line yields a null completeness score. -/
theorem extractMeta_labeled_roundtrip (ds ms : List Char) (hd : ds ≠ [])
    (hm : ms ≠ []) (h1 : ∀ c ∈ ds, isDigitC c = true)
    (h2 : ∀ c ∈ ms, isDigitC c = true) :
    extractMeta (mkLabeledReport ds ms)
      = ⟨some (digitsVal ds), some "High", some (digitsVal ms)⟩ := by
  have hconf : searchConf (rpt1 ++ (ds ++ (rpt2 ++ (ms ++ rpt3))))
      = some (digitsVal ds) := by
    refine searchConf_cons_some ?_
    show matchConfAt (rpt1 ++ (ds ++ (rpt2 ++ (ms ++ rpt3)))) = some (digitsVal ds)
    have hml : matchLit confLit (rpt1 ++ (ds ++ (rpt2 ++ (ms ++ rpt3))))
        = some (' ' :: (ds ++ (rpt2 ++ (ms ++ rpt3)))) := rfl
    unfold matchConfAt
    rw [hml]
    exact confAfter_at ds ('\n' :: ("Data Completeness: High (".data ++ (ms ++ rpt3)))
      hd h1
  have hcomp : searchComp (rpt1 ++ (ds ++ (rpt2 ++ (ms ++ rpt3))))
      = some ("High".data, some (digitsVal ms)) := by
    have s1 : searchComp (rpt1 ++ (ds ++ (rpt2 ++ (ms ++ rpt3))))
        = searchComp (ds ++ (rpt2 ++ (ms ++ rpt3))) := rfl
    have s2 : searchComp (ds ++ (rpt2 ++ (ms ++ rpt3)))
        = searchComp (rpt2 ++ (ms ++ rpt3)) := searchComp_digits_skip ds _ h1
    have s3 : searchComp (rpt2 ++ (ms ++ rpt3))
        = searchComp ("Data Completeness: High (".data ++ (ms ++ rpt3)) := rfl
    rw [s1, s2, s3]
    exact searchComp_cons_some (matchCompAt_at ms [] hm h2)
  show Meta.mk (searchConf (mkLabeledReport ds ms).data) _ _ = _
  rw [show (mkLabeledReport ds ms).data = rpt1 ++ (ds ++ (rpt2 ++ (ms ++ rpt3)))
    from rfl]
  rw [hconf, hcomp]

/-- C4, witness. -/
theorem extractMeta_labeled_roundtrip_witness :
    (['7', '0'] : List Char) ≠ []
    ∧ (∀ c ∈ (['7', '0'] : List Char), isDigitC c = true)
    ∧ extractMeta (mkLabeledReport ['7', '0'] ['8', '2'])
        = ⟨some (digitsVal ['7', '0']), some "High", some (digitsVal ['8', '2'])⟩ :=
  ⟨by decide, by decide,
   extractMeta_labeled_roundtrip ['7', '0'] ['8', '2'] (by decide) (by decide)
     (by decide) (by decide)⟩

/-! ## C5 -/

/-- C5, counterexample: a timed-out run does not fall back to a templated
rendering — on the abort outcome the dashboard renders nothing and surfaces
the timeout as a failure status. -/
theorem timeout_no_fallback_counterexample :
    (runWithOutcome goodInputs .abort).displayed = none
    ∧ (runWithOutcome goodInputs .abort).status =
        "❌ API request timed out (30s). The server might be busy or offline." := by
  exact ⟨rfl, rfl⟩

/-- C5, amended: every `/analyze` request is given an abort timer of
`CONFIG.API_TIMEOUT` milliseconds, defaulting to 30000 when the
configuration value is absent or zero; when the timer aborts the fetch,
`callAPI` throws the timeout message, and the run surfaces that message as
an error status and toast while rendering no result — there is no
templated fallback rendering in the dashboard. -/
theorem timeout_bounded_and_error_surface :
    effectiveTimeout none = 30000
    ∧ (∀ t : Nat, t ≠ 0 → effectiveTimeout (some t) = t)
    ∧ callAPI .abort = .error timeoutMsg
    ∧ (∀ (inp : RunInputs) (s : String), inp.product = some s → strTrim s ≠ "" →
      (runWithOutcome inp .abort).displayed = none
      ∧ (runWithOutcome inp .abort).status = "❌ " ++ timeoutMsg
      ∧ (runWithOutcome inp .abort).toast = timeoutMsg) := by
  refine ⟨rfl, ?_, rfl, ?_⟩
  · intro t ht
    simp [effectiveTimeout, ht]
  · intro inp s hp hs
    simp [runWithOutcome, runHandler, hp, hs, callAPI]

/-- C5, witness. -/
theorem timeout_bounded_and_error_surface_witness :
    effectiveTimeout (some 5000) = 5000
    ∧ (runWithOutcome goodInputs .abort).displayed = none :=
  ⟨timeout_bounded_and_error_surface.2.1 5000 (by decide),
   (timeout_bounded_and_error_surface.2.2.2 goodInputs "Widget" rfl (by decide)).1⟩

/-! ## C6 -/

/-- C6: an empty or whitespace-only product value (or a missing input
element) makes the run handler show the error toast and issue no request;
a non-empty product value makes it submit the payload, whose brief's scope
value is the upper-cased trimmed input.  The wizard's step-1 gate likewise
alerts and stays on an empty product. -/
theorem scope_validation_gates_request (inp : RunInputs) :
    (inp.product = none →
      (runHandler inp).request = none
      ∧ (runHandler inp).errorToast = some "Please enter a product name")
    ∧ (∀ s : String, inp.product = some s → strTrim s = "" →
      (runHandler inp).request = none
      ∧ (runHandler inp).errorToast = some "Please enter a product name")
    ∧ (∀ s : String, inp.product = some s → strTrim s ≠ "" →
      (runHandler inp).request = some (mkApiPayload s inp)
      ∧ (mkApiPayload s inp).brief.scope_value = strUpper (strTrim s)
      ∧ (runHandler inp).errorToast = none)
    ∧ (∀ p m : String, strTrim p = "" →
      handleStep1Next p m =
        ⟨some "Please enter a product name or SKU", false, none, none⟩) := by
  refine ⟨?_, ?_, ?_, ?_⟩
  · intro h
    simp [runHandler, h]
  · intro s hp hs
    simp [runHandler, hp, hs]
  · intro s hp hs
    refine ⟨?_, rfl, ?_⟩ <;> simp [runHandler, hp, hs]
  · intro p m h
    simp [handleStep1Next, h]

/-- C6, witness. -/
theorem scope_validation_gates_request_witness :
    (runHandler { goodInputs with product := some "   " }).request = none
    ∧ (runHandler goodInputs).request = some (mkApiPayload "Widget" goodInputs)
    ∧ handleStep1Next " " "m" =
        ⟨some "Please enter a product name or SKU", false, none, none⟩ :=
  ⟨((scope_validation_gates_request _).2.1 "   " rfl (by decide)).1,
   ((scope_validation_gates_request goodInputs).2.2.1 "Widget" rfl (by decide)).1,
   (scope_validation_gates_request goodInputs).2.2.2 " " "m" (by decide)⟩

/-! ## C7 -/

/-- C7: every payload the run handler submits carries
`update_memory = false`, so no dashboard-initiated run asks the backend to
update the persisted domain memory record. -/
theorem payload_update_memory_false (inp : RunInputs) (pl : ApiPayload)
    (h : (runHandler inp).request = some pl) : pl.update_memory = false := by
  unfold runHandler at h
  rcases hp : inp.product with _ | p
  · rw [hp] at h
    simp at h
  · rw [hp] at h
    by_cases hs : strTrim p = ""
    · simp [hs] at h
    · simp [hs] at h
      rw [← h]
      rfl

/-- C7, witness. -/
theorem payload_update_memory_false_witness :
    (mkApiPayload "Widget" goodInputs).update_memory = false :=
  payload_update_memory_false goodInputs (mkApiPayload "Widget" goodInputs)
    (by decide)

/-! ## C8 -/

/-- C8, counterexample: the badge classifiers disagree at confidence 0.76 —
`displayResults` labels it Medium (its High threshold is 0.8) while
`scoreToBadge` and the wizard's `showResults` label 76 High (their
threshold is 75). -/
theorem badge_thresholds_counterexample :
    appBadgeLabel 0.76 = "Medium"
    ∧ (scoreToBadge (100 * (0.76 : ℚ))).label = "High"
    ∧ cfgShowResultsBadge (100 * (0.76 : ℚ)) = "High"
    ∧ ("Medium" : String) ≠ "High" := by
  refine ⟨?_, ?_, ?_, by decide⟩ <;>
    norm_num [appBadgeLabel, scoreToBadge, cfgShowResultsBadge]

/-- C8, amended: `scoreToBadge` and the wizard's `showResults` rule agree
at every score; the `displayResults` rule agrees with them exactly outside
the band 0.75 ≤ c < 0.8, where `displayResults` says Medium and the other
two say High. -/
theorem badge_classifiers_relation (c : ℚ) :
    (scoreToBadge (100 * c)).label = cfgShowResultsBadge (100 * c)
    ∧ (appBadgeLabel c = (scoreToBadge (100 * c)).label ↔
        ¬(0.75 ≤ c ∧ c < 0.8)) := by
  constructor
  · simp only [scoreToBadge, cfgShowResultsBadge]
    split_ifs <;> rfl
  · rcases lt_or_le c 0.5 with h5 | h5
    · have ha : ¬ (0.8 : ℚ) ≤ c := by linarith
      have hb : ¬ (0.5 : ℚ) ≤ c := by linarith
      have hc : ¬ (75 : ℚ) ≤ 100 * c := by nlinarith
      have hd : ¬ (50 : ℚ) ≤ 100 * c := by nlinarith
      have he : ¬ (0.75 : ℚ) ≤ c := by linarith
      simp [appBadgeLabel, scoreToBadge, ha, hb, hc, hd, he]
    · rcases lt_or_le c 0.75 with h75 | h75
      · have ha : ¬ (0.8 : ℚ) ≤ c := by linarith
        have hc : ¬ (75 : ℚ) ≤ 100 * c := by nlinarith
        have hd : (50 : ℚ) ≤ 100 * c := by nlinarith
        have he : ¬ (0.75 : ℚ) ≤ c := by linarith
        simp [appBadgeLabel, scoreToBadge, ha, h5, hc, hd, he]
      · rcases lt_or_le c 0.8 with h8 | h8
        · have ha : ¬ (0.8 : ℚ) ≤ c := by linarith
          have hc : (75 : ℚ) ≤ 100 * c := by nlinarith
          simp [appBadgeLabel, scoreToBadge, ha, h5, hc, h75, h8]
        · have hc : (75 : ℚ) ≤ 100 * c := by nlinarith
          have hno : ¬ c < (0.8 : ℚ) := by linarith
          simp [appBadgeLabel, scoreToBadge, h8, hc, hno]

/-! ## C9 -/

/-- C9, counterexample: with a present but empty `detail` field on a
failing response, the thrown message is `Analysis failed`, not the detail
value — `||` treats the empty string as absent. -/
theorem api_empty_detail_counterexample :
    apiRunAnalysis ⟨false, some ⟨some ""⟩⟩ = .error "Analysis failed"
    ∧ ("Analysis failed" : String) ≠ "" := by
  exact ⟨rfl, by decide⟩

/-- C9, amended: the api client's `runAnalysis` throws exactly when the
response status is not ok, with a message equal to the body's `detail`
field when that field is a non-empty string and `Analysis failed`
otherwise (absent, unparsable, or empty detail); an ok status returns the
parsed body, and an unparsable body on an ok status yields the empty
object. -/
theorem api_error_characterization (resp : ApiResponse) :
    ((∃ e, apiRunAnalysis resp = .error e) ↔ resp.ok = false)
    ∧ (∀ s : String, resp.ok = false → resp.parsed = some ⟨some s⟩ → s ≠ "" →
      apiRunAnalysis resp = .error s)
    ∧ (resp.ok = false →
      (resp.parsed = none ∨ resp.parsed = some ⟨none⟩
        ∨ resp.parsed = some ⟨some ""⟩) →
      apiRunAnalysis resp = .error "Analysis failed")
    ∧ (∀ b : ApiBody, resp.ok = true → resp.parsed = some b →
      apiRunAnalysis resp = .ok b)
    ∧ (resp.ok = true → resp.parsed = none → apiRunAnalysis resp = .ok ⟨none⟩) := by
  refine ⟨?_, ?_, ?_, ?_, ?_⟩
  · cases hok : resp.ok <;> simp [apiRunAnalysis, hok]
  · intro s hok hp hs
    simp [apiRunAnalysis, hok, hp, jsOrS, hs]
  · rintro hok (hp | hp | hp) <;> simp [apiRunAnalysis, hok, hp, jsOrS]
  · intro b hok hp
    simp [apiRunAnalysis, hok, hp]
  · intro hok hp
    simp [apiRunAnalysis, hok, hp]

/-- C9, witness. -/
theorem api_error_characterization_witness :
    apiRunAnalysis ⟨false, some ⟨some "boom"⟩⟩ = .error "boom" :=
  (api_error_characterization _).2.1 "boom" rfl rfl (by decide)

/-! ## C10 -/

/-- C10: `displayResults` substitutes fixed defaults for falsy scores — an
absent or zero confidence is shown as 75% with the badge derived from 0.75
(Medium), an absent or zero completeness is shown as 80% with the meter at
80% — so a backend-reported zero score is never displayed as 0%. -/
theorem displayResults_falsy_defaults (r : AnalyzeResult) :
    ((r.confidence_score = none ∨ r.confidence_score = some 0) →
      (displayResults r).confText = "75%"
      ∧ (displayResults r).badge = appBadgeLabel 0.75
      ∧ (displayResults r).badge = "Medium")
    ∧ ((r.data_completeness = none ∨ r.data_completeness = some 0) →
      (displayResults r).compText = "80%"
      ∧ (displayResults r).meterWidth = "80%")
    ∧ (r.confidence_score = some 0 → (displayResults r).confText ≠ "0%")
    ∧ (r.data_completeness = some 0 →
      (displayResults r).compText ≠ "0%"
      ∧ (displayResults r).meterWidth ≠ "0%") := by
  have hconf : ∀ h : r.confidence_score = none ∨ r.confidence_score = some 0,
      jsOrQ r.confidence_score 0.75 = 0.75 := by
    rintro (h | h) <;> simp [jsOrQ, h]
  have hcomp : ∀ h : r.data_completeness = none ∨ r.data_completeness = some 0,
      jsOrQ r.data_completeness 0.8 = 0.8 := by
    rintro (h | h) <;> simp [jsOrQ, h]
  have e75 : jsRound ((0.75 : ℚ) * 100) = 75 := by
    have h : (0.75 : ℚ) * 100 + 1/2 = 151/2 := by norm_num
    rw [jsRound, h, Int.floor_eq_iff]
    norm_num
  have e80 : jsRound ((0.8 : ℚ) * 100) = 80 := by
    have h : (0.8 : ℚ) * 100 + 1/2 = 161/2 := by norm_num
    rw [jsRound, h, Int.floor_eq_iff]
    norm_num
  have m80 : toString ((0.8 : ℚ) * 100) = "80" := by
    have h : (0.8 : ℚ) * 100 = 80 := by norm_num
    rw [h]
    rfl
  refine ⟨?_, ?_, ?_, ?_⟩
  · intro h
    refine ⟨?_, ?_, ?_⟩
    · simp only [displayResults, hconf h, e75]
      rfl
    · simp only [displayResults, hconf h]
    · simp only [displayResults, hconf h]
      norm_num [appBadgeLabel]
  · intro h
    refine ⟨?_, ?_⟩
    · simp only [displayResults, hcomp h, e80]
      rfl
    · simp only [displayResults, hcomp h, m80]
      rfl
  · intro h
    simp only [displayResults, hconf (Or.inr h), e75]
    decide
  · intro h
    refine ⟨?_, ?_⟩
    · simp only [displayResults, hcomp (Or.inr h), e80]
      decide
    · simp only [displayResults, hcomp (Or.inr h), m80]
      decide

/-- C10, witness. -/
theorem displayResults_falsy_defaults_witness :
    (displayResults zeroResult).confText = "75%"
    ∧ (displayResults zeroResult).meterWidth = "80%"
    ∧ (displayResults zeroResult).confText ≠ "0%" :=
  ⟨((displayResults_falsy_defaults zeroResult).1 (Or.inr rfl)).1,
   ((displayResults_falsy_defaults zeroResult).2.1 (Or.inr rfl)).2,
   (displayResults_falsy_defaults zeroResult).2.2.1 rfl⟩

end InsiteForge
